import Mathlib

/-!
Verification of the TEASER `TwoElement` lumped-parameter calculation
(`teaser/logic/buildingobjects/calculation/two_element.py`).

The Python code works on floats; we model the arithmetic exactly over `ℚ`.
The constant `math.pi` is kept as an explicit parameter `pi : ℚ` of the
functions that form the VDI 6007 angular frequency, so every statement is
uniform in the value standing in for the real number pi.  A Python division
`a / b` raises `ZeroDivisionError` when `b == 0`; we model every such
division with the checked division `cdiv`, in the `Except Unit` monad, so a
normally-returning Python call corresponds to `.ok` and an uncaught
`ZeroDivisionError` (or the `UnboundLocalError` of `_calc_chain_matrix` on
short lists) corresponds to `.error ()`.  Data the class only reads from the
element objects (`area`, the six resistances, `ua_value`, `r1`, `c1`,
`c1_korr`, the layer stack, `g_value`) are fields of `Elem`; the spec makes
them preconditions, so `calc_equivalent_res`/`calc_ua_value` calls are
elided.  Object attributes written by the calculation are collected in
`TwoElementState`, all initialised to `0` exactly as in `__init__`
(the misspelled attributes `r1_1w`/`c1_1w` created dynamically by
`_calc_inner_elements` are `Option ℚ` fields initialised to `none`; the
never-touched adjacent-zone fields `*_outer_iw` are omitted).
-/

namespace TwoElementModel

/-- One layer's material, exposing the two optical properties read by the
aggregators (`material.ir_emissivity`, `material.solar_absorp`). -/
structure Mat where
  ir_emissivity : ℚ := 0
  solar_absorp : ℚ := 0
  deriving DecidableEq

/-- An envelope element as read by `TwoElement`: geometry, resistances,
UA-value, its own one-resistor/one-capacitor model and its layer stack.
First layer faces the zone, last layer faces the ambient. -/
structure Elem where
  area : ℚ := 0
  r_inner_conv : ℚ := 0
  r_inner_rad : ℚ := 0
  r_inner_comb : ℚ := 0
  r_outer_conv : ℚ := 0
  r_outer_rad : ℚ := 0
  r_outer_comb : ℚ := 0
  ua_value : ℚ := 0
  r1 : ℚ := 0
  c1 : ℚ := 0
  c1_korr : ℚ := 0
  g_value : ℚ := 0
  layer : List Mat := []
  deriving DecidableEq

/-- The thermal zone's categorized element sequences, as read by the
calculation. -/
structure Zone where
  outer_walls : List Elem := []
  ground_floors : List Elem := []
  rooftops : List Elem := []
  windows : List Elem := []
  inner_walls : List Elem := []
  floors : List Elem := []
  ceilings : List Elem := []
  deriving DecidableEq

/-- The mutable attributes of a `TwoElement` object that the modelled
methods write or read, with the initial values set in `__init__`. -/
structure TwoElementState where
  area_iw : ℚ := 0
  ua_value_iw : ℚ := 0
  r_conv_inner_iw : ℚ := 0
  r_rad_inner_iw : ℚ := 0
  r_comb_inner_iw : ℚ := 0
  ir_emissivity_inner_iw : ℚ := 0
  alpha_conv_inner_iw : ℚ := 0
  alpha_rad_inner_iw : ℚ := 0
  alpha_comb_inner_iw : ℚ := 0
  r1_iw : ℚ := 0
  c1_iw : ℚ := 0
  area_ow : ℚ := 0
  ua_value_ow : ℚ := 0
  r_conv_inner_ow : ℚ := 0
  r_rad_inner_ow : ℚ := 0
  r_comb_inner_ow : ℚ := 0
  alpha_conv_inner_ow : ℚ := 0
  alpha_rad_inner_ow : ℚ := 0
  alpha_comb_inner_ow : ℚ := 0
  r_conv_outer_ow : ℚ := 0
  r_rad_outer_ow : ℚ := 0
  r_comb_outer_ow : ℚ := 0
  alpha_conv_outer_ow : ℚ := 0
  alpha_rad_outer_ow : ℚ := 0
  alpha_comb_outer_ow : ℚ := 0
  ir_emissivity_inner_ow : ℚ := 0
  ir_emissivity_outer_ow : ℚ := 0
  solar_absorp_ow : ℚ := 0
  r1_ow : ℚ := 0
  r_rest_ow : ℚ := 0
  c1_ow : ℚ := 0
  r_total_ow : ℚ := 0
  r_rad_ow_iw : ℚ := 0
  area_win : ℚ := 0
  ua_value_win : ℚ := 0
  r_conv_inner_win : ℚ := 0
  r_rad_inner_win : ℚ := 0
  r_comb_inner_win : ℚ := 0
  alpha_conv_inner_win : ℚ := 0
  alpha_rad_inner_win : ℚ := 0
  alpha_comb_inner_win : ℚ := 0
  r_conv_outer_win : ℚ := 0
  r_rad_outer_win : ℚ := 0
  r_comb_outer_win : ℚ := 0
  alpha_conv_outer_win : ℚ := 0
  alpha_rad_outer_win : ℚ := 0
  alpha_comb_outer_win : ℚ := 0
  ir_emissivity_inner_win : ℚ := 0
  ir_emissivity_outer_win : ℚ := 0
  solar_absorp_win : ℚ := 0
  weighted_g_value : ℚ := 0
  r1_win : ℚ := 0
  r1_1w : Option ℚ := none
  c1_1w : Option ℚ := none
  deriving DecidableEq

/-- The state right after `__init__` has set all attributes and before the
calculation methods run. -/
def init_state : TwoElementState := {}

/-- The `merge_windows` configuration value.  Python compares it with
`is False` / `is True`; `mother` stands for any value that is neither. -/
inductive MergePolicy where
  | mfalse
  | mtrue
  | mother
  deriving DecidableEq

/-- Checked division: Python `a / b`, raising `ZeroDivisionError` on a zero
divisor. -/
def cdiv (a b : ℚ) : Except Unit ℚ :=
  if b = 0 then .error () else .ok (a / b)

/-- Plain Python `sum(f(e) for e in l)`. -/
def sum_of (f : Elem → ℚ) (l : List Elem) : ℚ :=
  (l.map f).sum

/-- Python `sum(1 / f(e) for e in l)`: every term is a checked division,
evaluated left to right. -/
def sum_inv (f : Elem → ℚ) : List Elem → Except Unit ℚ
  | [] => .ok 0
  | e :: es => do
    let x ← cdiv 1 (f e)
    let s ← sum_inv f es
    .ok (x + s)

/-- Zone-facing layer, `element.layer[0].material` in the source. -/
def mat0 (e : Elem) : Mat :=
  e.layer.head?.getD ⟨0, 0⟩

/-- Ambient-facing layer, `element.layer[-1].material` in the source. -/
def matL (e : Elem) : Mat :=
  e.layer.getLast?.getD ⟨0, 0⟩

/-- One combination step of `_calc_chain_matrix`: the closed-form
complex-impedance-matching formulas applied to the running pair
`(r1x, c1x)` and the next element's pair `(r2, c2)`.  The numerator of the
new resistance is divided first, then the capacity, exactly as the two
assignment statements in the source; both denominators are Python
divisions and hence checked.  The source spells this formula out twice
(once for the first loop iteration on elements 0 and 1, once for the
general iteration); both instances are literally this expression. -/
def chain_step (omega r1x c1x r2 c2 : ℚ) : Except Unit (ℚ × ℚ) := do
  let r1 ← cdiv
    (r1x * c1x ^ 2 + r2 * c2 ^ 2 +
      omega ^ 2 * r1x * r2 * (r1x + r2) * c1x ^ 2 * c2 ^ 2)
    ((c1x + c2) ^ 2 + omega ^ 2 * (r1x + r2) ^ 2 * c1x ^ 2 * c2 ^ 2)
  let c1 ← cdiv
    ((c1x + c2) ^ 2 + omega ^ 2 * (r1x + r2) ^ 2 * c1x ^ 2 * c2 ^ 2)
    (c1x + c2 + omega ^ 2 * (r1x ^ 2 * c1x + r2 ^ 2 * c2) * c1x * c2)
  pure (r1, c1)

/-- The tail of the loop of `_calc_chain_matrix`: combine the running pair
with each remaining element's `(r1, c1)` in order. -/
def chain_go (omega : ℚ) : ℚ × ℚ → List Elem → Except Unit (ℚ × ℚ)
  | p, [] => pure p
  | p, e :: es => do
    let p' ← chain_step omega p.1 p.2 e.r1 e.c1
    chain_go omega p' es

/-- Translation of `TwoElement._calc_chain_matrix`.  The loop runs over
`range(len(element_list) - 1)`; its first iteration combines elements 0
and 1, every later iteration combines the running pair with the next
element.  On a list of fewer than two elements the loop body never runs
and the `return r1, c1` statement raises `UnboundLocalError`, modelled as
`.error ()`. -/
def calc_chain_matrix (omega : ℚ) : List Elem → Except Unit (ℚ × ℚ)
  | e0 :: e1 :: rest => do
    let p ← chain_step omega e0.r1 e0.c1 e1.r1 e1.c1
    chain_go omega p rest
  | _ => .error ()

/-- Combination step exactly as the spec writes the closed-form formulas,
with total field division, on pairs. -/
def chain_step_spec (omega : ℚ) (p q : ℚ × ℚ) : ℚ × ℚ :=
  ((p.1 * p.2 ^ 2 + q.1 * q.2 ^ 2 +
      omega ^ 2 * p.1 * q.1 * (p.1 + q.1) * p.2 ^ 2 * q.2 ^ 2) /
    ((p.2 + q.2) ^ 2 + omega ^ 2 * (p.1 + q.1) ^ 2 * p.2 ^ 2 * q.2 ^ 2),
   ((p.2 + q.2) ^ 2 + omega ^ 2 * (p.1 + q.1) ^ 2 * p.2 ^ 2 * q.2 ^ 2) /
    (p.2 + q.2 + omega ^ 2 * (p.1 ^ 2 * p.2 + q.1 ^ 2 * q.2) * p.2 * q.2))

/-- The spec's reducer: a strict left-to-right fold of the combination step
over the element pairs. -/
def chain_reduce_spec (omega : ℚ) (p : ℚ × ℚ) (l : List (ℚ × ℚ)) : ℚ × ℚ :=
  l.foldl (chain_step_spec omega) p

/-- The values computed by `_sum_outer_wall_elements`, in statement order. -/
structure OwVals where
  area_ow : ℚ
  ua_value_ow : ℚ
  r_conv_inner_ow : ℚ
  r_rad_inner_ow : ℚ
  r_comb_inner_ow : ℚ
  ir_emissivity_inner_ow : ℚ
  alpha_conv_inner_ow : ℚ
  alpha_rad_inner_ow : ℚ
  alpha_comb_inner_ow : ℚ
  r_conv_outer_ow : ℚ
  r_rad_outer_ow : ℚ
  r_comb_outer_ow : ℚ
  ir_emissivity_outer_ow : ℚ
  solar_absorp_ow : ℚ
  alpha_conv_outer_ow : ℚ
  alpha_rad_outer_ow : ℚ
  alpha_comb_outer_ow : ℚ

/-- Value computation of `TwoElement._sum_outer_wall_elements`: outer
walls, ground floors and rooftops are treated as one group; inner-side
resistances combine all three lists in parallel, ambient-side resistances
only outer walls and rooftops (ground floors have no ambient side).  The
emissivity and absorptivity combinations reproduce the source expressions
literally: only the rooftop term is divided by `area_ow` (the full sum is
not), which is the operator-precedence defect flagged by the spec. -/
def sum_outer_values (z : Zone) : Except Unit OwVals := do
  let area_ow := sum_of (fun e => e.area) z.outer_walls +
    sum_of (fun e => e.area) z.ground_floors +
    sum_of (fun e => e.area) z.rooftops
  let ua_value_ow := sum_of (fun e => e.ua_value) z.outer_walls +
    sum_of (fun e => e.ua_value) z.ground_floors +
    sum_of (fun e => e.ua_value) z.rooftops
  let s1 ← sum_inv (fun e => e.r_inner_conv) z.outer_walls
  let s2 ← sum_inv (fun e => e.r_inner_conv) z.ground_floors
  let s3 ← sum_inv (fun e => e.r_inner_conv) z.rooftops
  let r_conv_inner_ow ← cdiv 1 (s1 + s2 + s3)
  let s4 ← sum_inv (fun e => e.r_inner_rad) z.outer_walls
  let s5 ← sum_inv (fun e => e.r_inner_rad) z.ground_floors
  let s6 ← sum_inv (fun e => e.r_inner_rad) z.rooftops
  let r_rad_inner_ow ← cdiv 1 (s4 + s5 + s6)
  let s7 ← sum_inv (fun e => e.r_inner_comb) z.outer_walls
  let s8 ← sum_inv (fun e => e.r_inner_comb) z.ground_floors
  let s9 ← sum_inv (fun e => e.r_inner_comb) z.rooftops
  let r_comb_inner_ow ← cdiv 1 (s7 + s8 + s9)
  let t1 ← cdiv (sum_of (fun e => (mat0 e).ir_emissivity * e.area) z.rooftops) area_ow
  let ir_emissivity_inner_ow :=
    sum_of (fun e => (mat0 e).ir_emissivity * e.area) z.outer_walls +
    sum_of (fun e => (mat0 e).ir_emissivity * e.area) z.ground_floors + t1
  let alpha_conv_inner_ow ← cdiv 1 (r_conv_inner_ow * area_ow)
  let alpha_rad_inner_ow ← cdiv 1 (r_rad_inner_ow * area_ow)
  let alpha_comb_inner_ow ← cdiv 1 (r_comb_inner_ow * area_ow)
  let u1 ← sum_inv (fun e => e.r_outer_conv) z.outer_walls
  let u2 ← sum_inv (fun e => e.r_outer_conv) z.rooftops
  let r_conv_outer_ow ← cdiv 1 (u1 + u2)
  let u3 ← sum_inv (fun e => e.r_outer_rad) z.outer_walls
  let u4 ← sum_inv (fun e => e.r_outer_rad) z.rooftops
  let r_rad_outer_ow ← cdiv 1 (u3 + u4)
  let u5 ← sum_inv (fun e => e.r_outer_comb) z.outer_walls
  let u6 ← sum_inv (fun e => e.r_outer_comb) z.rooftops
  let r_comb_outer_ow ← cdiv 1 (u5 + u6)
  let t2 ← cdiv (sum_of (fun e => (matL e).ir_emissivity * e.area) z.rooftops) area_ow
  let ir_emissivity_outer_ow :=
    sum_of (fun e => (matL e).ir_emissivity * e.area) z.outer_walls + t2
  let t3 ← cdiv (sum_of (fun e => (matL e).solar_absorp * e.area) z.rooftops) area_ow
  let solar_absorp_ow :=
    sum_of (fun e => (matL e).solar_absorp * e.area) z.outer_walls + t3
  let alpha_conv_outer_ow ← cdiv 1 (r_conv_outer_ow * area_ow)
  let alpha_rad_outer_ow ← cdiv 1 (r_rad_outer_ow * area_ow)
  let alpha_comb_outer_ow ← cdiv 1 (r_comb_outer_ow * area_ow)
  pure ⟨area_ow, ua_value_ow, r_conv_inner_ow, r_rad_inner_ow, r_comb_inner_ow,
    ir_emissivity_inner_ow, alpha_conv_inner_ow, alpha_rad_inner_ow,
    alpha_comb_inner_ow, r_conv_outer_ow, r_rad_outer_ow, r_comb_outer_ow,
    ir_emissivity_outer_ow, solar_absorp_ow, alpha_conv_outer_ow,
    alpha_rad_outer_ow, alpha_comb_outer_ow⟩

/-- `TwoElement._sum_outer_wall_elements`: compute the values and write
them to the corresponding attributes. -/
def sum_outer_wall_elements (z : Zone) (st : TwoElementState) :
    Except Unit TwoElementState :=
  (sum_outer_values z).map fun v =>
    { st with
      area_ow := v.area_ow
      ua_value_ow := v.ua_value_ow
      r_conv_inner_ow := v.r_conv_inner_ow
      r_rad_inner_ow := v.r_rad_inner_ow
      r_comb_inner_ow := v.r_comb_inner_ow
      ir_emissivity_inner_ow := v.ir_emissivity_inner_ow
      alpha_conv_inner_ow := v.alpha_conv_inner_ow
      alpha_rad_inner_ow := v.alpha_rad_inner_ow
      alpha_comb_inner_ow := v.alpha_comb_inner_ow
      r_conv_outer_ow := v.r_conv_outer_ow
      r_rad_outer_ow := v.r_rad_outer_ow
      r_comb_outer_ow := v.r_comb_outer_ow
      ir_emissivity_outer_ow := v.ir_emissivity_outer_ow
      solar_absorp_ow := v.solar_absorp_ow
      alpha_conv_outer_ow := v.alpha_conv_outer_ow
      alpha_rad_outer_ow := v.alpha_rad_outer_ow
      alpha_comb_outer_ow := v.alpha_comb_outer_ow }

/-- The values computed by `_sum_inner_wall_elements`, in statement order. -/
structure IwVals where
  area_iw : ℚ
  ua_value_iw : ℚ
  r_conv_inner_iw : ℚ
  r_rad_inner_iw : ℚ
  r_comb_inner_iw : ℚ
  ir_emissivity_inner_iw : ℚ
  alpha_conv_inner_iw : ℚ
  alpha_rad_inner_iw : ℚ
  alpha_comb_inner_iw : ℚ

/-- Value computation of `TwoElement._sum_inner_wall_elements` over inner
walls, floors and ceilings (inner side only; adjacent thermal zones are
not supported).  The emissivity expression again divides only the last
summed term (ceilings) by `area_iw`. -/
def sum_inner_values (z : Zone) : Except Unit IwVals := do
  let area_iw := sum_of (fun e => e.area) z.inner_walls +
    sum_of (fun e => e.area) z.floors +
    sum_of (fun e => e.area) z.ceilings
  let ua_value_iw := sum_of (fun e => e.ua_value) z.inner_walls +
    sum_of (fun e => e.ua_value) z.floors +
    sum_of (fun e => e.ua_value) z.ceilings
  let s1 ← sum_inv (fun e => e.r_inner_conv) z.inner_walls
  let s2 ← sum_inv (fun e => e.r_inner_conv) z.floors
  let s3 ← sum_inv (fun e => e.r_inner_conv) z.ceilings
  let r_conv_inner_iw ← cdiv 1 (s1 + s2 + s3)
  let s4 ← sum_inv (fun e => e.r_inner_rad) z.inner_walls
  let s5 ← sum_inv (fun e => e.r_inner_rad) z.floors
  let s6 ← sum_inv (fun e => e.r_inner_rad) z.ceilings
  let r_rad_inner_iw ← cdiv 1 (s4 + s5 + s6)
  let s7 ← sum_inv (fun e => e.r_inner_comb) z.inner_walls
  let s8 ← sum_inv (fun e => e.r_inner_comb) z.floors
  let s9 ← sum_inv (fun e => e.r_inner_comb) z.ceilings
  let r_comb_inner_iw ← cdiv 1 (s7 + s8 + s9)
  let t1 ← cdiv (sum_of (fun e => (mat0 e).ir_emissivity * e.area) z.ceilings) area_iw
  let ir_emissivity_inner_iw :=
    sum_of (fun e => (mat0 e).ir_emissivity * e.area) z.inner_walls +
    sum_of (fun e => (mat0 e).ir_emissivity * e.area) z.floors + t1
  let alpha_conv_inner_iw ← cdiv 1 (r_conv_inner_iw * area_iw)
  let alpha_rad_inner_iw ← cdiv 1 (r_rad_inner_iw * area_iw)
  let alpha_comb_inner_iw ← cdiv 1 (r_comb_inner_iw * area_iw)
  pure ⟨area_iw, ua_value_iw, r_conv_inner_iw, r_rad_inner_iw, r_comb_inner_iw,
    ir_emissivity_inner_iw, alpha_conv_inner_iw, alpha_rad_inner_iw,
    alpha_comb_inner_iw⟩

/-- `TwoElement._sum_inner_wall_elements`. -/
def sum_inner_wall_elements (z : Zone) (st : TwoElementState) :
    Except Unit TwoElementState :=
  (sum_inner_values z).map fun v =>
    { st with
      area_iw := v.area_iw
      ua_value_iw := v.ua_value_iw
      r_conv_inner_iw := v.r_conv_inner_iw
      r_rad_inner_iw := v.r_rad_inner_iw
      r_comb_inner_iw := v.r_comb_inner_iw
      ir_emissivity_inner_iw := v.ir_emissivity_inner_iw
      alpha_conv_inner_iw := v.alpha_conv_inner_iw
      alpha_rad_inner_iw := v.alpha_rad_inner_iw
      alpha_comb_inner_iw := v.alpha_comb_inner_iw }

/-- The values computed by `_sum_window_elements`, in statement order.  The
fields `r_rad_inner_ow_w`, `r_comb_inner_ow_w` and
`ir_emissivity_inner_ow_w` are the window aggregates that the source
assigns to the OUTER-WALL attributes `r_rad_inner_ow`, `r_comb_inner_ow`
and `ir_emissivity_inner_ow` (instead of the window attributes). -/
structure WinVals where
  area_win : ℚ
  ua_value_win : ℚ
  r_conv_inner_win : ℚ
  r_rad_inner_ow_w : ℚ
  r_comb_inner_ow_w : ℚ
  ir_emissivity_inner_ow_w : ℚ
  alpha_conv_inner_win : ℚ
  alpha_rad_inner_win : ℚ
  alpha_comb_inner_win : ℚ
  r_conv_outer_win : ℚ
  r_rad_outer_win : ℚ
  r_comb_outer_win : ℚ
  ir_emissivity_outer_win : ℚ
  solar_absorp_win : ℚ
  weighted_g_value : ℚ
  alpha_conv_outer_win : ℚ
  alpha_rad_outer_win : ℚ
  alpha_comb_outer_win : ℚ

/-- Statements of `_sum_window_elements` from the computation of the alpha
coefficients onward, given the three inner-side combined resistances just
computed.  The inner alpha coefficients for radiation and combination
divide by the object's attributes `self.r_rad_inner_win` and
`self.r_comb_inner_win` — which the method never assigned, so they still
hold the value from the incoming state `st` (0.0 after `__init__`). -/
def sum_window_tail (z : Zone) (st : TwoElementState)
    (area_win ua_value_win r_conv_inner_win r_rad_inner_ow_w
      r_comb_inner_ow_w : ℚ) :
    Except Unit WinVals := do
  let ir_emissivity_inner_ow_w :=
    sum_of (fun e => (mat0 e).ir_emissivity * e.area) z.windows
  let alpha_conv_inner_win ← cdiv 1 (r_conv_inner_win * area_win)
  let alpha_rad_inner_win ← cdiv 1 (st.r_rad_inner_win * area_win)
  let alpha_comb_inner_win ← cdiv 1 (st.r_comb_inner_win * area_win)
  let s4 ← sum_inv (fun e => e.r_outer_conv) z.windows
  let r_conv_outer_win ← cdiv 1 s4
  let s5 ← sum_inv (fun e => e.r_outer_rad) z.windows
  let r_rad_outer_win ← cdiv 1 s5
  let s6 ← sum_inv (fun e => e.r_outer_comb) z.windows
  let r_comb_outer_win ← cdiv 1 s6
  let ir_emissivity_outer_win :=
    sum_of (fun e => (matL e).ir_emissivity * e.area) z.windows
  let solar_absorp_win :=
    sum_of (fun e => (matL e).solar_absorp * e.area) z.windows
  let weighted_g_value := sum_of (fun e => e.g_value * e.area) z.windows
  let alpha_conv_outer_win ← cdiv 1 (r_conv_outer_win * area_win)
  let alpha_rad_outer_win ← cdiv 1 (r_rad_outer_win * area_win)
  let alpha_comb_outer_win ← cdiv 1 (r_comb_outer_win * area_win)
  pure ⟨area_win, ua_value_win, r_conv_inner_win, r_rad_inner_ow_w,
    r_comb_inner_ow_w, ir_emissivity_inner_ow_w, alpha_conv_inner_win,
    alpha_rad_inner_win, alpha_comb_inner_win, r_conv_outer_win,
    r_rad_outer_win, r_comb_outer_win, ir_emissivity_outer_win,
    solar_absorp_win, weighted_g_value, alpha_conv_outer_win,
    alpha_rad_outer_win, alpha_comb_outer_win⟩

/-- Value computation of `TwoElement._sum_window_elements`, faithful to
the source including its two defects: the radiative/combined/emissivity
inner-side window aggregates go to `_ow` attributes, and the inner alpha
coefficients divide by the never-assigned `r_rad_inner_win` /
`r_comb_inner_win` attributes (see `sum_window_tail`). -/
def sum_window_values (z : Zone) (st : TwoElementState) : Except Unit WinVals := do
  let area_win := sum_of (fun e => e.area) z.windows
  let ua_value_win := sum_of (fun e => e.ua_value) z.windows
  let s1 ← sum_inv (fun e => e.r_inner_conv) z.windows
  let r_conv_inner_win ← cdiv 1 s1
  let s2 ← sum_inv (fun e => e.r_inner_rad) z.windows
  let r_rad_inner_ow_w ← cdiv 1 s2
  let s3 ← sum_inv (fun e => e.r_inner_comb) z.windows
  let r_comb_inner_ow_w ← cdiv 1 s3
  sum_window_tail z st area_win ua_value_win r_conv_inner_win
    r_rad_inner_ow_w r_comb_inner_ow_w

/-- `TwoElement._sum_window_elements`: note the window radiative, combined
and emissivity inner-side aggregates land in the `_ow` attributes, and
`r_rad_inner_win` / `r_comb_inner_win` are never written. -/
def sum_window_elements (z : Zone) (st : TwoElementState) :
    Except Unit TwoElementState :=
  (sum_window_values z st).map fun v =>
    { st with
      area_win := v.area_win
      ua_value_win := v.ua_value_win
      r_conv_inner_win := v.r_conv_inner_win
      r_rad_inner_ow := v.r_rad_inner_ow_w
      r_comb_inner_ow := v.r_comb_inner_ow_w
      ir_emissivity_inner_ow := v.ir_emissivity_inner_ow_w
      alpha_conv_inner_win := v.alpha_conv_inner_win
      alpha_rad_inner_win := v.alpha_rad_inner_win
      alpha_comb_inner_win := v.alpha_comb_inner_win
      r_conv_outer_win := v.r_conv_outer_win
      r_rad_outer_win := v.r_rad_outer_win
      r_comb_outer_win := v.r_comb_outer_win
      ir_emissivity_outer_win := v.ir_emissivity_outer_win
      solar_absorp_win := v.solar_absorp_win
      weighted_g_value := v.weighted_g_value
      alpha_conv_outer_win := v.alpha_conv_outer_win
      alpha_rad_outer_win := v.alpha_rad_outer_win
      alpha_comb_outer_win := v.alpha_comb_outer_win }

/-- First part of `TwoElement._calc_outer_elements` (lines 703 to 727):
form `omega = 2 * math.pi / 86400 / self.t_bt`, concatenate outer walls,
ground floors and rooftops in that fixed order, and reduce.  One element:
take its `(r1, c1_korr)` directly.  More than one: run the chain-matrix
reduction (which reads `r1` and `c1`).  None: the source only issues
`warnings.warn` and leaves `r1_ow`, `c1_ow` untouched. -/
def calc_outer_chain (pi t_bt : ℚ) (z : Zone) (st : TwoElementState) :
    Except Unit TwoElementState :=
  let omega := 2 * pi / 86400 / t_bt
  match z.outer_walls ++ z.ground_floors ++ z.rooftops with
  | [] => pure st
  | [e] => pure { st with r1_ow := e.r1, c1_ow := e.c1_korr }
  | e0 :: e1 :: rest => do
    let rc ← calc_chain_matrix omega (e0 :: e1 :: rest)
    pure { st with r1_ow := rc.1, c1_ow := rc.2 }

/-- The values computed by the `merge_windows is False` block of
`_calc_outer_elements`. -/
structure MergeFalseVals where
  r1_win : ℚ
  r_total_ow : ℚ
  r_rad_ow_iw : ℚ
  r_rest_ow : ℚ

/-- Value computation of the `merge_windows is False` block: the window
branch resistance puts each window's `r1` in series with its
`r_outer_comb` and combines in parallel; `r_total_ow = 1 / ua_value_ow`;
`r_rad_ow_iw = 1 / (1 / r_rad_inner_ow)`; and the rest resistance closes
the branch.  (The source wraps this in `try/except RuntimeError`, which
does not catch `ZeroDivisionError`, so division errors propagate.) -/
def merge_false_values (z : Zone) (st : TwoElementState) :
    Except Unit MergeFalseVals := do
  let s ← sum_inv (fun w => w.r1 + w.r_outer_comb) z.windows
  let r1_win ← cdiv 1 s
  let r_total_ow ← cdiv 1 st.ua_value_ow
  let a ← cdiv 1 st.r_rad_inner_ow
  let r_rad_ow_iw ← cdiv 1 a
  let b ← cdiv 1 st.r_conv_inner_ow
  let c ← cdiv 1 r_rad_ow_iw
  let d ← cdiv 1 (b + c)
  pure ⟨r1_win, r_total_ow, r_rad_ow_iw, r_total_ow - st.r1_ow - d⟩

/-- The `merge_windows is False` block of `_calc_outer_elements`. -/
def merge_false_branch (z : Zone) (st : TwoElementState) :
    Except Unit TwoElementState :=
  (merge_false_values z st).map fun v =>
    { st with
      r1_win := v.r1_win
      r_total_ow := v.r_total_ow
      r_rad_ow_iw := v.r_rad_ow_iw
      r_rest_ow := v.r_rest_ow }

/-- The values computed by the `merge_windows is True` block of
`_calc_outer_elements`. -/
structure MergeTrueVals where
  r1_win : ℚ
  r1_ow : ℚ
  r_total_ow : ℚ
  r_rad_ow_iw : ℚ
  r_rest_ow : ℚ
  ir_emissivity_inner_ow : ℚ
  ir_emissivity_outer_ow : ℚ
  solar_absorp_ow : ℚ

/-- Value computation of the `merge_windows is True` block: windows are
folded into the outer dynamic pair (`r1_win = sum of 1 / (r1 / 6)`,
`r1_ow = 1 / (1 / r1_ow + r1_win)`), totals include window UA-values, the
radiative bridge and rest resistance take the window inner resistances
into account, and the three optical properties are re-weighted by combined
area. -/
def merge_true_values (z : Zone) (st : TwoElementState) :
    Except Unit MergeTrueVals := do
  let r1_win ← sum_inv (fun w => w.r1 / 6) z.windows
  let a ← cdiv 1 st.r1_ow
  let r1_ow ← cdiv 1 (a + r1_win)
  let r_total_ow ← cdiv 1 (st.ua_value_ow + st.ua_value_win)
  let b ← cdiv 1 st.r_rad_inner_ow
  let c ← cdiv 1 st.r_rad_inner_win
  let r_rad_ow_iw ← cdiv 1 (b + c)
  let d ← cdiv 1 st.r_conv_inner_ow
  let e ← cdiv 1 st.r_conv_inner_win
  let f ← cdiv 1 r_rad_ow_iw
  let g ← cdiv 1 (d + e + f)
  let ir_in ← cdiv
    (st.ir_emissivity_inner_ow * st.area_ow + st.ir_emissivity_inner_win * st.area_win)
    (st.area_ow + st.area_win)
  let ir_out ← cdiv
    (st.ir_emissivity_outer_ow * st.area_ow + st.ir_emissivity_outer_win * st.area_win)
    (st.area_ow + st.area_win)
  let sol ← cdiv
    (st.solar_absorp_ow * st.area_ow + st.solar_absorp_win * st.area_win)
    (st.area_ow + st.area_win)
  pure ⟨r1_win, r1_ow, r_total_ow, r_rad_ow_iw, r_total_ow - r1_ow - g,
    ir_in, ir_out, sol⟩

/-- The `merge_windows is True` block of `_calc_outer_elements`. -/
def merge_true_branch (z : Zone) (st : TwoElementState) :
    Except Unit TwoElementState :=
  (merge_true_values z st).map fun v =>
    { st with
      r1_win := v.r1_win
      r1_ow := v.r1_ow
      r_total_ow := v.r_total_ow
      r_rad_ow_iw := v.r_rad_ow_iw
      r_rest_ow := v.r_rest_ow
      ir_emissivity_inner_ow := v.ir_emissivity_inner_ow
      ir_emissivity_outer_ow := v.ir_emissivity_outer_ow
      solar_absorp_ow := v.solar_absorp_ow }

/-- Second part of `TwoElement._calc_outer_elements` (lines 729 to 780):
the two policy blocks, guarded by `merge_windows is False` and
`merge_windows is True` in sequence.  A value that is neither leaves the
state untouched — neither block runs and no error is raised here. -/
def calc_outer_windows (policy : MergePolicy) (z : Zone)
    (st : TwoElementState) : Except Unit TwoElementState := do
  let st1 ← if policy = MergePolicy.mfalse then merge_false_branch z st else pure st
  if policy = MergePolicy.mtrue then merge_true_branch z st1 else pure st1

/-- `TwoElement._calc_outer_elements`: chain-matrix part then window
policy part. -/
def calc_outer_elements (pi t_bt : ℚ) (policy : MergePolicy) (z : Zone)
    (st : TwoElementState) : Except Unit TwoElementState := do
  let st1 ← calc_outer_chain pi t_bt z st
  calc_outer_windows policy z st1

/-- `TwoElement._calc_inner_elements`: same omega and reduction over inner
walls, floors and ceilings, but the results are assigned to the attributes
`r1_1w` and `c1_1w` spelled with the digit one — NOT to the documented
attributes `r1_iw` / `c1_iw`, which keep their `__init__` value.  The
assignments create fresh attributes, modelled as the `Option ℚ` fields. -/
def calc_inner_elements (pi t_bt : ℚ) (z : Zone) (st : TwoElementState) :
    Except Unit TwoElementState :=
  let omega := 2 * pi / 86400 / t_bt
  match z.inner_walls ++ z.floors ++ z.ceilings with
  | [] => pure st
  | [e] => pure { st with r1_1w := some e.r1, c1_1w := some e.c1_korr }
  | e0 :: e1 :: rest => do
    let rc ← calc_chain_matrix omega (e0 :: e1 :: rest)
    pure { st with r1_1w := some rc.1, c1_1w := some rc.2 }

/-- The per-element `wf_out` assignments of one loop of `_calc_wf`:
`element.ua_value / den` for each element in order. -/
def wf_list (den : ℚ) : List Elem → Except Unit (List ℚ)
  | [] => .ok []
  | e :: es => do
    let w ← cdiv e.ua_value den
    let ws ← wf_list den es
    .ok (w :: ws)

/-- `TwoElement._calc_wf`: weight factors for the concatenated outer-wall
list and for the windows.  Merged policy divides both groups by
`ua_value_ow + ua_value_win`; separate policy divides walls by
`ua_value_ow` and windows by `ua_value_win`; any other `merge_windows`
value raises `ValueError`.  The result pairs the outer-wall factors (in
concatenation order) with the window factors. -/
def calc_wf (policy : MergePolicy) (z : Zone) (st : TwoElementState) :
    Except Unit (List ℚ × List ℚ) :=
  let outer_walls := z.outer_walls ++ z.ground_floors ++ z.rooftops
  if policy = MergePolicy.mtrue then do
    let ws ← wf_list (st.ua_value_ow + st.ua_value_win) outer_walls
    let vs ← wf_list (st.ua_value_ow + st.ua_value_win) z.windows
    .ok (ws, vs)
  else if policy = MergePolicy.mfalse then do
    let ws ← wf_list st.ua_value_ow outer_walls
    let vs ← wf_list st.ua_value_win z.windows
    .ok (ws, vs)
  else .error ()

/-- The `TwoElement` constructor after attribute initialisation: the five
method calls at the end of `__init__`, in order (`_calc_inner_elements`
is NOT among them).  Returns the final state together with the outer and
window weight-factor lists. -/
def two_element_calc (pi t_bt : ℚ) (policy : MergePolicy) (z : Zone) :
    Except Unit (TwoElementState × List ℚ × List ℚ) := do
  let st1 ← sum_outer_wall_elements z init_state
  let st2 ← sum_inner_wall_elements z st1
  let st3 ← sum_window_elements z st2
  let st4 ← calc_outer_elements pi t_bt policy z st3
  let wf ← calc_wf policy z st4
  pure (st4, wf)

/-- Spec-side aggregation formula for the inner-facing composite ir
emissivity of the outer-wall group, written from the spec's words: the
full area-weighted average over all member elements, every summed term
divided by the total area, using the zone-facing layer (index 0). -/
def ir_emissivity_inner_full_average (z : Zone) : ℚ :=
  (sum_of (fun e => (mat0 e).ir_emissivity * e.area) z.outer_walls +
    sum_of (fun e => (mat0 e).ir_emissivity * e.area) z.ground_floors +
    sum_of (fun e => (mat0 e).ir_emissivity * e.area) z.rooftops) /
  (sum_of (fun e => e.area) z.outer_walls +
    sum_of (fun e => e.area) z.ground_floors +
    sum_of (fun e => e.area) z.rooftops)

/-- Spec-side aggregation formula for the ambient-facing composite ir
emissivity: full area-weighted average over the ambient-exposed members
(outer walls and rooftops), using the ambient-facing layer (last index),
divided by the group's total area. -/
def ir_emissivity_outer_full_average (z : Zone) : ℚ :=
  (sum_of (fun e => (matL e).ir_emissivity * e.area) z.outer_walls +
    sum_of (fun e => (matL e).ir_emissivity * e.area) z.rooftops) /
  (sum_of (fun e => e.area) z.outer_walls +
    sum_of (fun e => e.area) z.ground_floors +
    sum_of (fun e => e.area) z.rooftops)

/-! Concrete inputs used by the closed evaluation theorems below. -/

/-- A unit element for exercising the chain-matrix reducer. -/
def elA : Elem := { r1 := 1, c1 := 1 }

/-- An outer wall matching the spec's worked scenario:
`r1 = 0.002 K/W`, `c1_korr = 5e6 J/K`, `ua_value = 40 W/K`. -/
def owB : Elem := { r1 := 1 / 500, c1_korr := 5000000, ua_value := 40 }

/-- A window matching the spec's worked scenario: `r1 = 0.01`,
`r_outer_comb = 0.02`, `ua_value = 8`. -/
def winB : Elem :=
  { r1 := 1 / 100, r_outer_comb := 1 / 50, ua_value := 8,
    r_inner_conv := 1, r_inner_rad := 1, r_inner_comb := 1,
    r_outer_conv := 1, r_outer_rad := 1, area := 1 }

/-- An outer wall with unit values. -/
def owC : Elem := { r1 := 1, c1_korr := 1, ua_value := 1 }

/-- A window whose own dynamic resistance is 6 K/W. -/
def winC : Elem := { r1 := 6, ua_value := 1 }

/-- An outer wall with area 2 and inner/outer layer emissivity 0.9. -/
def owD : Elem :=
  { area := 2, r_inner_conv := 1, r_inner_rad := 1, r_inner_comb := 1,
    r_outer_conv := 1, r_outer_rad := 1, r_outer_comb := 1, ua_value := 1,
    layer := [⟨9 / 10, 1 / 2⟩] }

/-- An inner wall with `r1 = 0.01` and `c1_korr = 5`. -/
def iwA : Elem := { r1 := 1 / 100, c1_korr := 5 }

/-- Zone with two identical outer walls (chain-matrix case). -/
def zC1 : Zone := { outer_walls := [elA, elA] }

/-- Zone with one window and no opaque elements. -/
def zC2 : Zone := { windows := [winB] }

/-- Zone with a single outer wall. -/
def zC3 : Zone := { outer_walls := [owB] }

/-- Zone with one outer wall and one window (the spec's worked scenario). -/
def zC4 : Zone := { outer_walls := [owB], windows := [winB] }

/-- Zone with one unit outer wall and one window with `r1 = 6`. -/
def zC5 : Zone := { outer_walls := [owC], windows := [winC] }

/-- Zone with a single outer wall carrying layer data. -/
def zC7 : Zone := { outer_walls := [owD] }

/-- Zone with no outer walls, no ground floors and no rooftops at all. -/
def zC8 : Zone := {}

/-- Zone with one outer wall (for the unrecognized-policy run). -/
def zC9 : Zone := { outer_walls := [owC] }

/-- Zone with a single inner wall. -/
def zC10 : Zone := { inner_walls := [iwA] }

/-- A state as it would stand before the window-policy block for the
spec's worked scenario: aggregated UA-values 40 (walls) and 8 (windows),
unit inner resistances, and the single wall's `r1` as `r1_ow`. -/
def stC4 : TwoElementState :=
  { init_state with
    ua_value_ow := 40, ua_value_win := 8, r1_ow := 1 / 500,
    r_rad_inner_ow := 1, r_conv_inner_ow := 1,
    r_rad_inner_win := 1, r_conv_inner_win := 1,
    area_ow := 1, area_win := 1 }

/-- A state with unit aggregates feeding the merged-policy block. -/
def stC5 : TwoElementState :=
  { init_state with
    ua_value_ow := 1, ua_value_win := 1,
    r_rad_inner_ow := 1, r_rad_inner_win := 1,
    r_conv_inner_ow := 1, r_conv_inner_win := 1,
    area_ow := 1, area_win := 1 }

/-- Aggregated UA-values for the weight-factor pass on `zC4`. -/
def stC6 : TwoElementState :=
  { init_state with ua_value_ow := 40, ua_value_win := 8 }

/-- The state `stC5` after the chain stage has stored the single wall's
`r1 = 1` in `r1_ow`. -/
def stC5b : TwoElementState := { stC5 with r1_ow := 1 }

/-! Basic lemmas about the `Except Unit` computations. -/

deriving instance DecidableEq for Except

theorem pure_ok {β : Type} (b : β) : (pure b : Except Unit β) = .ok b := rfl

theorem ok_bind {β γ : Type} (b : β) (f : β → Except Unit γ) :
    (Except.ok b >>= f : Except Unit γ) = f b := rfl

theorem error_bind {β γ : Type} (f : β → Except Unit γ) :
    (Except.error () >>= f : Except Unit γ) = .error () := rfl

theorem bind_ok_iff {β γ : Type} {x : Except Unit β} {f : β → Except Unit γ}
    {c : γ} : x >>= f = .ok c ↔ ∃ b, x = .ok b ∧ f b = .ok c := by
  cases x with
  | error e => simp [Bind.bind, Except.bind]
  | ok a => simp [Bind.bind, Except.bind]

theorem map_ok_iff {β γ : Type} {x : Except Unit β} {f : β → γ} {c : γ} :
    x.map f = .ok c ↔ ∃ b, x = .ok b ∧ f b = c := by
  cases x with
  | error e => simp [Except.map]
  | ok a => simp [Except.map]

theorem bind_eq_error_of_error {β γ : Type} {x : Except Unit β}
    (hx : x = .error ()) (f : β → Except Unit γ) : x >>= f = .error () := by
  rw [hx]; rfl

theorem bind_eq_error_of_ok {β γ : Type} {x : Except Unit β} {b : β}
    (hx : x = .ok b) {f : β → Except Unit γ} (hf : f b = .error ()) :
    x >>= f = .error () := by
  rw [hx, ok_bind]; exact hf

theorem bind_error_all {β γ : Type} (x : Except Unit β)
    (f : β → Except Unit γ) (hf : ∀ b, x = .ok b → f b = .error ()) :
    x >>= f = .error () := by
  cases x with
  | error e => cases e; rfl
  | ok b => exact hf b rfl

theorem cdiv_ok_iff {a b c : ℚ} : cdiv a b = .ok c ↔ b ≠ 0 ∧ a / b = c := by
  unfold cdiv; split <;> simp_all

theorem cdiv_error_iff {a b : ℚ} : cdiv a b = .error () ↔ b = 0 := by
  unfold cdiv; split <;> simp_all

theorem cdiv_zero (a : ℚ) : cdiv a 0 = .error () := by
  simp [cdiv]

theorem sum_inv_ok (f : Elem → ℚ) (l : List Elem) :
    ∀ s, sum_inv f l = .ok s → s = (l.map fun e => 1 / f e).sum := by
  induction l with
  | nil =>
    intro s h
    simp [sum_inv] at h
    simp [← h]
  | cons e es ih =>
    intro s h
    simp only [sum_inv, bind_ok_iff, Except.ok.injEq] at h
    obtain ⟨x, hx, s', hs', rfl⟩ := h
    rw [cdiv_ok_iff] at hx
    simp [ih s' hs', ← hx.2]

theorem wf_list_ok (den : ℚ) (l : List Elem) :
    ∀ ws, wf_list den l = .ok ws →
      ws = l.map (fun e => e.ua_value / den) ∧ (l ≠ [] → den ≠ 0) := by
  induction l with
  | nil =>
    intro ws h
    simp [wf_list] at h
    simp [← h]
  | cons e es ih =>
    intro ws h
    simp only [wf_list, bind_ok_iff, Except.ok.injEq] at h
    obtain ⟨w, hw, ws', hws', rfl⟩ := h
    rw [cdiv_ok_iff] at hw
    exact ⟨by simp [(ih ws' hws').1, ← hw.2], fun _ => hw.1⟩

theorem map_div_sum (f : Elem → ℚ) (d : ℚ) (l : List Elem) :
    (l.map fun e => f e / d).sum = (l.map f).sum / d := by
  induction l with
  | nil => simp
  | cons e es ih => simp [ih, add_div]

/-! Lemmas relating the chain-matrix loop to the spec's left fold. -/

theorem chain_step_ok {omega a b c d : ℚ} {p : ℚ × ℚ}
    (h : chain_step omega a b c d = .ok p) :
    p = chain_step_spec omega (a, b) (c, d) := by
  simp only [chain_step, bind_ok_iff, pure_ok, Except.ok.injEq] at h
  obtain ⟨r, hr, c1, hc1, rfl⟩ := h
  rw [cdiv_ok_iff] at hr hc1
  simp [chain_step_spec, ← hr.2, ← hc1.2]

theorem chain_go_ok (omega : ℚ) (l : List Elem) :
    ∀ p q, chain_go omega p l = .ok q →
      q = chain_reduce_spec omega p (l.map fun e => (e.r1, e.c1)) := by
  induction l with
  | nil =>
    intro p q h
    simp only [chain_go, pure_ok, Except.ok.injEq] at h
    simp [chain_reduce_spec, ← h]
  | cons e es ih =>
    intro p q h
    simp only [chain_go, bind_ok_iff] at h
    obtain ⟨p', hp', h⟩ := h
    have hstep : p' = chain_step_spec omega p (e.r1, e.c1) := by
      have := chain_step_ok hp'
      simpa using this
    simp only [chain_reduce_spec, List.map_cons, List.foldl_cons]
    rw [← hstep]
    exact ih p' q h

theorem calc_chain_matrix_ok {omega : ℚ} {e0 e1 : Elem} {rest : List Elem}
    {p : ℚ × ℚ} (h : calc_chain_matrix omega (e0 :: e1 :: rest) = .ok p) :
    p = chain_reduce_spec omega (e0.r1, e0.c1)
      ((e1 :: rest).map fun e => (e.r1, e.c1)) := by
  simp only [calc_chain_matrix, bind_ok_iff] at h
  obtain ⟨p0, hp0, h⟩ := h
  have h0 := chain_step_ok hp0
  simp only [chain_reduce_spec, List.map_cons, List.foldl_cons]
  rw [← h0]
  exact chain_go_ok omega rest p0 p h

/-! State-preservation lemmas for the aggregation passes. -/

theorem sum_outer_preserves_win {z : Zone} {st st' : TwoElementState}
    (h : sum_outer_wall_elements z st = .ok st') :
    st'.r_rad_inner_win = st.r_rad_inner_win := by
  simp only [sum_outer_wall_elements, map_ok_iff] at h
  obtain ⟨v, -, rfl⟩ := h
  rfl

theorem sum_inner_preserves_win {z : Zone} {st st' : TwoElementState}
    (h : sum_inner_wall_elements z st = .ok st') :
    st'.r_rad_inner_win = st.r_rad_inner_win := by
  simp only [sum_inner_wall_elements, map_ok_iff] at h
  obtain ⟨v, -, rfl⟩ := h
  rfl

/-- Whenever `self.r_rad_inner_win` still holds the `__init__` value `0.0`
when `_sum_window_elements` runs — it is never written beforehand — the
method raises `ZeroDivisionError`: with no windows, already at
`1 / sum(1 / win.r_inner_conv)` over the empty sum; with windows, at the
latest at `alpha_rad_inner_win = 1 / (r_rad_inner_win * area_win)`,
because the radiative window aggregate was stored in `r_rad_inner_ow`
instead of `r_rad_inner_win`. -/
theorem sum_window_tail_error (z : Zone) (st : TwoElementState)
    (aw uw a b c : ℚ) (h0 : st.r_rad_inner_win = 0) :
    sum_window_tail z st aw uw a b c = .error () := by
  simp only [sum_window_tail]
  refine bind_error_all _ _ fun aconv _ => ?_
  rw [h0, zero_mul, cdiv_zero]
  rfl

theorem sum_window_values_error (z : Zone) (st : TwoElementState)
    (h0 : st.r_rad_inner_win = 0) : sum_window_values z st = .error () := by
  simp only [sum_window_values]
  refine bind_error_all _ _ fun s1 _ => ?_
  refine bind_error_all _ _ fun rconv _ => ?_
  refine bind_error_all _ _ fun s2 _ => ?_
  refine bind_error_all _ _ fun rrad _ => ?_
  refine bind_error_all _ _ fun s3 _ => ?_
  refine bind_error_all _ _ fun rcomb _ => ?_
  exact sum_window_tail_error z st _ _ _ _ _ h0

theorem sum_window_elements_error (z : Zone) (st : TwoElementState)
    (h0 : st.r_rad_inner_win = 0) : sum_window_elements z st = .error () := by
  simp [sum_window_elements, sum_window_values_error z st h0, Except.map]

/-! The claims. -/

/-- C1: for every ordered list of at least two elements, the chain-matrix
reducer combines strictly left to right, at each step replacing the
running pair and the next element's pair by the closed-form
complex-impedance-matching formulas (here: the left fold of
`chain_step_spec`); and the assembler applies it to the concatenation
outer walls, then ground floors, then rooftops, at
`omega = 2 * pi / (86400 * t_bt)`, storing the result in
`(r1_ow, c1_ow)`. -/
theorem C1_chain_matrix_left_to_right :
    (∀ (omega : ℚ) (e0 e1 : Elem) (rest : List Elem) (p : ℚ × ℚ),
      calc_chain_matrix omega (e0 :: e1 :: rest) = .ok p →
      p = chain_reduce_spec omega (e0.r1, e0.c1)
        ((e1 :: rest).map fun e => (e.r1, e.c1))) ∧
    (∀ (pi t_bt : ℚ) (z : Zone) (st st' : TwoElementState) (e0 e1 : Elem)
      (rest : List Elem),
      z.outer_walls ++ z.ground_floors ++ z.rooftops = e0 :: e1 :: rest →
      calc_outer_chain pi t_bt z st = .ok st' →
      (st'.r1_ow, st'.c1_ow) =
        chain_reduce_spec (2 * pi / (86400 * t_bt)) (e0.r1, e0.c1)
          ((e1 :: rest).map fun e => (e.r1, e.c1))) := by
  refine ⟨fun omega e0 e1 rest p h => calc_chain_matrix_ok h, ?_⟩
  intro pi t_bt z st st' e0 e1 rest hl h
  unfold calc_outer_chain at h
  rw [hl] at h
  simp only [bind_ok_iff, pure_ok, Except.ok.injEq] at h
  obtain ⟨rc, hrc, rfl⟩ := h
  have h2 := calc_chain_matrix_ok hrc
  rw [← div_div, ← h2]

/-- Witness for C1: a two-element reduction evaluated at `omega = 1`
agrees with the fold, and on the concrete zone `zC1` the assembler stores
the fold's result at the derived frequency. -/
theorem C1_chain_matrix_left_to_right_witness :
    ((1 / 2 : ℚ), (2 : ℚ)) = chain_reduce_spec 1 (1, 1) [(1, 1)] ∧
    (calc_outer_chain 3 5 zC1 init_state).map (fun s => (s.r1_ow, s.c1_ow)) =
      .ok (chain_reduce_spec (2 * 3 / (86400 * 5)) (1, 1) [(1, 1)]) := by
  constructor
  · have h := C1_chain_matrix_left_to_right.1 1 elA elA [] (1 / 2, 2)
      (by with_unfolding_all rfl)
    simpa [elA] using h
  · cases hh : calc_outer_chain 3 5 zC1 init_state with
    | error e => cases e; exact absurd hh (by with_unfolding_all decide)
    | ok s =>
      have h2 := C1_chain_matrix_left_to_right.2 3 5 zC1 init_state s
        elA elA [] rfl hh
      simpa [Except.map, elA] using h2

/-- C2: for every thermal zone whose outer- and inner-wall aggregations
complete, the `TwoElement` constructor never completes normally: the
whole constructor pipeline always returns the `ZeroDivisionError` marker
(first conjunct), because `_sum_window_elements` always divides by zero
once `r_rad_inner_win` still holds its `__init__` value 0.0 (second
conjunct) — with no windows the empty reciprocal sum is inverted, with
windows the radiative window aggregate was misdirected to
`r_rad_inner_ow`, so `alpha_rad_inner_win = 1 / (r_rad_inner_win *
area_win)` divides by `0.0 * area_win = 0`. -/
theorem C2_constructor_never_completes :
    (∀ (pi t_bt : ℚ) (policy : MergePolicy) (z : Zone),
      two_element_calc pi t_bt policy z = .error ()) ∧
    (∀ (z : Zone) (st : TwoElementState), st.r_rad_inner_win = 0 →
      sum_window_elements z st = .error ()) := by
  constructor
  · intro pi t_bt policy z
    unfold two_element_calc
    cases h1 : sum_outer_wall_elements z init_state with
    | error e => cases e; rfl
    | ok st1 =>
      simp only [ok_bind]
      cases h2 : sum_inner_wall_elements z st1 with
      | error e => cases e; rfl
      | ok st2 =>
        simp only [ok_bind]
        have hw : st2.r_rad_inner_win = 0 := by
          rw [sum_inner_preserves_win h2, sum_outer_preserves_win h1]
          rfl
        rw [sum_window_elements_error z st2 hw]
        rfl
  · exact fun z st h => sum_window_elements_error z st h

/-- Witness for C2: on the zone with one window the window pass fails
right away from the freshly initialised state. -/
theorem C2_constructor_never_completes_witness :
    sum_window_elements zC2 init_state = .error () :=
  C2_constructor_never_completes.2 zC2 init_state rfl

/-- C3: with exactly one outer element the lumped pair is the element's
own `(r1, c1_korr)`, written directly without any chain-matrix
reduction. -/
theorem C3_single_outer_element (pi t_bt : ℚ) (z : Zone)
    (st : TwoElementState) (e : Elem)
    (hl : z.outer_walls ++ z.ground_floors ++ z.rooftops = [e]) :
    calc_outer_chain pi t_bt z st =
      .ok { st with r1_ow := e.r1, c1_ow := e.c1_korr } := by
  unfold calc_outer_chain
  rw [hl]
  rfl

/-- Witness for C3 on the single-wall zone `zC3`. -/
theorem C3_single_outer_element_witness :
    calc_outer_chain 3 5 zC3 init_state =
      .ok { init_state with r1_ow := 1 / 500, c1_ow := 5000000 } := by
  have h := C3_single_outer_element 3 5 zC3 init_state owB rfl
  simpa [owB] using h

/-- C4: with at least one window and one outer element, the separate
policy computes `r1_win` as the parallel combination of each window's
`r1 + r_outer_comb`, sets `r_total_ow = 1 / ua_value_ow` and leaves
`r1_ow` unchanged, while the merged policy computes
`r1_win = sum of 1 / (r1 / 6)`, folds it into
`r1_ow = 1 / (1 / r1_ow + r1_win)` and sets
`r_total_ow = 1 / (ua_value_ow + ua_value_win)`. -/
theorem C4_window_policy (z : Zone) (st : TwoElementState)
    (hw : z.windows ≠ [])
    (ho : z.outer_walls ++ z.ground_floors ++ z.rooftops ≠ []) :
    (∀ st', calc_outer_windows .mfalse z st = .ok st' →
      st'.r1_win =
        1 / ((z.windows.map fun w => 1 / (w.r1 + w.r_outer_comb)).sum) ∧
      st'.r_total_ow = 1 / st.ua_value_ow ∧
      st'.r1_ow = st.r1_ow) ∧
    (∀ st', calc_outer_windows .mtrue z st = .ok st' →
      st'.r1_win = (z.windows.map fun w => 1 / (w.r1 / 6)).sum ∧
      st'.r1_ow = 1 / (1 / st.r1_ow + st'.r1_win) ∧
      st'.r_total_ow = 1 / (st.ua_value_ow + st.ua_value_win)) := by
  constructor
  · intro st' h
    have hb : merge_false_branch z st = .ok st' := by
      simpa [calc_outer_windows] using h
    simp only [merge_false_branch, map_ok_iff] at hb
    obtain ⟨v, hv, rfl⟩ := hb
    simp only [merge_false_values, bind_ok_iff, pure_ok, Except.ok.injEq] at hv
    obtain ⟨s, hs, r1w, hr1w, rtot, hrtot, a, ha, rr, hrr, b, hb2, c, hc, d,
      hd, rfl⟩ := hv
    rw [cdiv_ok_iff] at hr1w hrtot
    refine ⟨?_, ?_, rfl⟩
    · have hsum := sum_inv_ok _ _ _ hs
      simp [← hr1w.2, hsum]
    · simp [← hrtot.2]
  · intro st' h
    have hb : merge_true_branch z st = .ok st' := by
      simpa [calc_outer_windows] using h
    simp only [merge_true_branch, map_ok_iff] at hb
    obtain ⟨v, hv, rfl⟩ := hb
    simp only [merge_true_values, bind_ok_iff, pure_ok, Except.ok.injEq] at hv
    obtain ⟨r1w, hr1w, a, ha, r1o, hr1o, rtot, hrtot, b, hb2, c, hc, rr, hrr,
      d, hd, e, he, f, hf, g, hg, iri, hiri, iro, hiro, so, hso, rfl⟩ := hv
    rw [cdiv_ok_iff] at ha hr1o hrtot
    have hsum := sum_inv_ok _ _ _ hr1w
    refine ⟨by simp [hsum], ?_, by simp [← hrtot.2]⟩
    show r1o = 1 / (1 / st.r1_ow + r1w)
    rw [← hr1o.2, ← ha.2]

set_option maxRecDepth 8000 in
/-- Witness for C4 on the spec's worked scenario: one wall
(`r1 = 0.002`, `ua = 40`), one window (`r1 = 0.01`,
`r_outer_comb = 0.02`, `ua = 8`): separate policy gives
`r1_win = 0.03`, `r_total_ow = 0.025`, `r1_ow` unchanged at `0.002`;
merged policy gives `r1_win = 600`, `r1_ow = 1/1100`,
`r_total_ow = 1/48`. -/
theorem C4_window_policy_witness :
    (calc_outer_windows .mfalse zC4 stC4).map
        (fun s => (s.r1_win, s.r_total_ow, s.r1_ow)) =
      .ok (3 / 100, 1 / 40, 1 / 500) ∧
    (calc_outer_windows .mtrue zC4 stC4).map
        (fun s => (s.r1_win, s.r1_ow, s.r_total_ow)) =
      .ok (600, 1 / 1100, 1 / 48) := by
  constructor
  · cases hh : calc_outer_windows .mfalse zC4 stC4 with
    | error e => cases e; exact absurd hh (by with_unfolding_all decide)
    | ok s =>
      obtain ⟨h1, h2, h3⟩ :=
        (C4_window_policy zC4 stC4 (by decide) (by decide)).1 s hh
      simp only [Except.map]
      rw [h1, h2, h3]
      with_unfolding_all decide
  · cases hh : calc_outer_windows .mtrue zC4 stC4 with
    | error e => cases e; exact absurd hh (by with_unfolding_all decide)
    | ok s =>
      obtain ⟨h1, h2, h3⟩ :=
        (C4_window_policy zC4 stC4 (by decide) (by decide)).2 s hh
      rw [h1] at h2
      simp only [Except.map]
      rw [h1, h2, h3]
      with_unfolding_all decide

/-- C5 (amended): under the separate policy the completed assembler
satisfies `r_total_ow = r1_ow + r_rest_ow + parallel(r_conv_inner_ow,
r_rad_ow_iw)` exactly, by construction of `r_rest_ow`; under the merged
policy the invariant that holds instead is the three-way version whose
parallel term also includes `r_conv_inner_win`.  The code performs no
tolerance check and reports no consistency failure; the invariants hold
by construction in exact arithmetic. -/
theorem C5_network_invariant (z : Zone) (st : TwoElementState) :
    (∀ st', calc_outer_windows .mfalse z st = .ok st' →
      st'.r_total_ow = st'.r1_ow + st'.r_rest_ow +
        1 / (1 / st'.r_conv_inner_ow + 1 / st'.r_rad_ow_iw)) ∧
    (∀ st', calc_outer_windows .mtrue z st = .ok st' →
      st'.r_total_ow = st'.r1_ow + st'.r_rest_ow +
        1 / (1 / st'.r_conv_inner_ow + 1 / st'.r_conv_inner_win +
          1 / st'.r_rad_ow_iw)) := by
  constructor
  · intro st' h
    have hb : merge_false_branch z st = .ok st' := by
      simpa [calc_outer_windows] using h
    simp only [merge_false_branch, map_ok_iff] at hb
    obtain ⟨v, hv, rfl⟩ := hb
    simp only [merge_false_values, bind_ok_iff, pure_ok, Except.ok.injEq] at hv
    obtain ⟨s, hs, r1w, hr1w, rtot, hrtot, a, ha, rr, hrr, b, hb2, c, hc, d,
      hd, rfl⟩ := hv
    rw [cdiv_ok_iff] at hb2 hc hd
    show rtot = st.r1_ow + (rtot - st.r1_ow - d) +
      1 / (1 / st.r_conv_inner_ow + 1 / rr)
    rw [hb2.2, hc.2, hd.2]
    ring
  · intro st' h
    have hb : merge_true_branch z st = .ok st' := by
      simpa [calc_outer_windows] using h
    simp only [merge_true_branch, map_ok_iff] at hb
    obtain ⟨v, hv, rfl⟩ := hb
    simp only [merge_true_values, bind_ok_iff, pure_ok, Except.ok.injEq] at hv
    obtain ⟨r1w, hr1w, a, ha, r1o, hr1o, rtot, hrtot, b, hb2, c, hc, rr, hrr,
      d, hd, e, he, f, hf, g, hg, iri, hiri, iro, hiro, so, hso, rfl⟩ := hv
    rw [cdiv_ok_iff] at hd he hf hg
    show rtot = r1o + (rtot - r1o - g) +
      1 / (1 / st.r_conv_inner_ow + 1 / st.r_conv_inner_win + 1 / rr)
    rw [hd.2, he.2, hf.2, hg.2]
    ring

/-- Counterexample for C5 as stated: on a zone with one unit outer wall
and a window with `r1 = 6`, the merged assembler completes with
`r_total_ow = 1/2` while `r1_ow + r_rest_ow + parallel(r_conv_inner_ow,
r_rad_ow_iw) = 7/12`; the two-way invariant fails and nothing reports a
consistency failure. -/
theorem C5_network_invariant_counterexample :
    (calc_outer_elements 3 5 .mtrue zC5 stC5).map
        (fun s => (s.r_total_ow, s.r1_ow + s.r_rest_ow +
          1 / (1 / s.r_conv_inner_ow + 1 / s.r_rad_ow_iw))) =
      .ok (1 / 2, 7 / 12) ∧ (1 / 2 : ℚ) ≠ 7 / 12 := by
  with_unfolding_all decide

/-- Witness for C5: the separate run on the worked scenario satisfies the
two-way invariant (`1/40 = 1/40`), and the merged run on the unit zone
satisfies the three-way invariant (`1/2 = 1/2`). -/
theorem C5_network_invariant_witness :
    (calc_outer_windows .mfalse zC4 stC4).map
        (fun s => (s.r_total_ow, s.r1_ow + s.r_rest_ow +
          1 / (1 / s.r_conv_inner_ow + 1 / s.r_rad_ow_iw))) =
      .ok (1 / 40, 1 / 40) ∧
    (calc_outer_windows .mtrue zC5 stC5b).map
        (fun s => (s.r_total_ow, s.r1_ow + s.r_rest_ow +
          1 / (1 / s.r_conv_inner_ow + 1 / s.r_conv_inner_win +
            1 / s.r_rad_ow_iw))) =
      .ok (1 / 2, 1 / 2) := by
  constructor
  · cases hh : calc_outer_windows .mfalse zC4 stC4 with
    | error e => cases e; exact absurd hh (by with_unfolding_all decide)
    | ok s =>
      have h := (C5_network_invariant zC4 stC4).1 s hh
      have hval : (Except.ok s : Except Unit TwoElementState).map
          (fun t => t.r_total_ow) = .ok (1 / 40) := by
        rw [← hh]; with_unfolding_all rfl
      simp only [Except.map, Except.ok.injEq] at hval
      simp only [Except.map]
      rw [← h, hval]
  · cases hh : calc_outer_windows .mtrue zC5 stC5b with
    | error e => cases e; exact absurd hh (by with_unfolding_all decide)
    | ok s =>
      have h := (C5_network_invariant zC5 stC5b).2 s hh
      have hval : (Except.ok s : Except Unit TwoElementState).map
          (fun t => t.r_total_ow) = .ok (1 / 2) := by
        rw [← hh]; with_unfolding_all rfl
      simp only [Except.map, Except.ok.injEq] at hval
      simp only [Except.map]
      rw [← h, hval]

/-- C6: the weight-factor pass divides each outer element's `ua_value` by
`ua_value_ow` (separate; windows by `ua_value_win`) or by
`ua_value_ow + ua_value_win` (merged, both groups), so over the
normalization group the factors sum to exactly 1 — walls alone and
windows alone under the separate policy, walls plus windows under the
merged policy — provided the aggregated UA totals are the group sums. -/
theorem C6_weight_factor_normalization (z : Zone) (st : TwoElementState)
    (how : st.ua_value_ow =
      sum_of (fun e => e.ua_value) (z.outer_walls ++ z.ground_floors ++ z.rooftops))
    (hwin : st.ua_value_win = sum_of (fun e => e.ua_value) z.windows) :
    (∀ ws vs, calc_wf .mfalse z st = .ok (ws, vs) →
      ws = (z.outer_walls ++ z.ground_floors ++ z.rooftops).map
        (fun e => e.ua_value / st.ua_value_ow) ∧
      vs = z.windows.map (fun e => e.ua_value / st.ua_value_win) ∧
      (z.outer_walls ++ z.ground_floors ++ z.rooftops ≠ [] → ws.sum = 1) ∧
      (z.windows ≠ [] → vs.sum = 1)) ∧
    (∀ ws vs, calc_wf .mtrue z st = .ok (ws, vs) →
      ws = (z.outer_walls ++ z.ground_floors ++ z.rooftops).map
        (fun e => e.ua_value / (st.ua_value_ow + st.ua_value_win)) ∧
      vs = z.windows.map
        (fun e => e.ua_value / (st.ua_value_ow + st.ua_value_win)) ∧
      (z.outer_walls ++ z.ground_floors ++ z.rooftops ++ z.windows ≠ [] →
        ws.sum + vs.sum = 1)) := by
  simp only [sum_of] at how hwin
  constructor
  · intro ws vs h
    simp only [calc_wf,
      show (MergePolicy.mfalse = MergePolicy.mtrue) = False by simp,
      show (MergePolicy.mfalse = MergePolicy.mfalse) = True by simp,
      show (MergePolicy.mtrue = MergePolicy.mtrue) = True by simp,
      if_true, if_false, bind_ok_iff, Except.ok.injEq, Prod.mk.injEq] at h
    obtain ⟨ws', hws, vs', hvs, rfl, rfl⟩ := h
    obtain ⟨hws1, hwsden⟩ := wf_list_ok _ _ _ hws
    obtain ⟨hvs1, hvsden⟩ := wf_list_ok _ _ _ hvs
    refine ⟨hws1, hvs1, ?_, ?_⟩
    · intro hne
      rw [hws1, map_div_sum, ← how]
      exact div_self (hwsden hne)
    · intro hne
      rw [hvs1, map_div_sum, ← hwin]
      exact div_self (hvsden hne)
  · intro ws vs h
    simp only [calc_wf,
      show (MergePolicy.mfalse = MergePolicy.mtrue) = False by simp,
      show (MergePolicy.mfalse = MergePolicy.mfalse) = True by simp,
      show (MergePolicy.mtrue = MergePolicy.mtrue) = True by simp,
      if_true, if_false, bind_ok_iff, Except.ok.injEq, Prod.mk.injEq] at h
    obtain ⟨ws', hws, vs', hvs, rfl, rfl⟩ := h
    obtain ⟨hws1, hwsden⟩ := wf_list_ok _ _ _ hws
    obtain ⟨hvs1, hvsden⟩ := wf_list_ok _ _ _ hvs
    refine ⟨hws1, hvs1, ?_⟩
    intro hne
    have hden : st.ua_value_ow + st.ua_value_win ≠ 0 := by
      by_cases hOW : z.outer_walls ++ z.ground_floors ++ z.rooftops = []
      · refine hvsden ?_
        intro hwe
        exact hne (by rw [hOW, hwe]; rfl)
      · exact hwsden hOW
    rw [hws1, hvs1, map_div_sum, map_div_sum, div_add_div_same, ← how, ← hwin]
    exact div_self hden

/-- Witness for C6 on the worked scenario (`ua` 40 and 8): the separate
factors sum to 1 in each group and the merged factors sum to 1 overall. -/
theorem C6_weight_factor_normalization_witness :
    (calc_wf .mfalse zC4 stC6).map (fun p => (p.1.sum, p.2.sum)) =
      .ok (1, 1) ∧
    (calc_wf .mtrue zC4 stC6).map (fun p => p.1.sum + p.2.sum) = .ok 1 := by
  constructor
  · cases hh : calc_wf .mfalse zC4 stC6 with
    | error e => cases e; exact absurd hh (by with_unfolding_all decide)
    | ok p =>
      obtain ⟨ws, vs⟩ := p
      obtain ⟨-, -, hsum1, hsum2⟩ :=
        (C6_weight_factor_normalization zC4 stC6
          (by with_unfolding_all decide) (by with_unfolding_all decide)).1
          ws vs hh
      simp only [Except.map]
      rw [hsum1 (by decide), hsum2 (by decide)]
  · cases hh : calc_wf .mtrue zC4 stC6 with
    | error e => cases e; exact absurd hh (by with_unfolding_all decide)
    | ok p =>
      obtain ⟨ws, vs⟩ := p
      obtain ⟨-, -, hsum⟩ :=
        (C6_weight_factor_normalization zC4 stC6
          (by with_unfolding_all decide) (by with_unfolding_all decide)).2
          ws vs hh
      simp only [Except.map]
      rw [hsum (by decide)]

/-- C7: the claim states the composite emissivity equals the full
area-weighted average with every summed term divided by the total area.
The code divides only the last summed category (the rooftop term) by
`area_ow`.  On a zone with a single outer wall of area 2 and emissivity
0.9 the code stores 9/5 for both the inner and outer composite
emissivity, while the full average is 9/10: the claim is right about the
intent (the docstring says area-weighted) and the source expression is an
operator-precedence slip. -/
theorem C7_emissivity_division_defect :
    (sum_outer_wall_elements zC7 init_state).map
        (fun s => (s.ir_emissivity_inner_ow, s.ir_emissivity_outer_ow)) =
      .ok (9 / 5, 9 / 5) ∧
    ir_emissivity_inner_full_average zC7 = 9 / 10 ∧
    ir_emissivity_outer_full_average zC7 = 9 / 10 ∧
    ((9 : ℚ) / 5) ≠ 9 / 10 := by
  with_unfolding_all decide

/-- Counterexample for C8: with zero outer walls, zero ground floors and
zero rooftops, the aggregator itself fails with an uncontrolled
`ZeroDivisionError` (modelled `.error ()`) when inverting the empty
reciprocal sum for `r_conv_inner_ow`, and so does the whole constructor
pipeline; the controlled `warnings.warn` for the empty outer group sits
in `_calc_outer_elements`, which is never reached. -/
theorem C8_empty_group_counterexample :
    sum_outer_wall_elements zC8 init_state = .error () ∧
    two_element_calc 3 5 .mfalse zC8 = .error () := by
  with_unfolding_all decide

/-- C8 (amended): whenever all three outer categories are empty, the
aggregation pass `_sum_outer_wall_elements` raises an uncontrolled
`ZeroDivisionError` instead of reporting the empty group; the warning in
the assembler is unreachable for this condition. -/
theorem C8_empty_group_error (z : Zone) (st : TwoElementState)
    (h1 : z.outer_walls = []) (h2 : z.ground_floors = [])
    (h3 : z.rooftops = []) :
    sum_outer_wall_elements z st = .error () := by
  have hv : sum_outer_values z = .error () := by
    simp only [sum_outer_values, h1, h2, h3]
    with_unfolding_all rfl
  simp [sum_outer_wall_elements, hv, Except.map]

/-- Witness for C8 (amended) on the windows-only zone `zC2`. -/
theorem C8_empty_group_error_witness :
    sum_outer_wall_elements zC2 init_state = .error () :=
  C8_empty_group_error zC2 init_state rfl rfl rfl

/-- Counterexample for C9: with a `merge_windows` value that is neither
`True` nor `False`, the assembler does NOT report a configuration error —
it completes normally, silently skipping both policy blocks, so the
policy-dependent results `r1_win` and `r_total_ow` keep their
initialisation value 0; the hard `ValueError` is raised only later, in
the weight-factor pass. -/
theorem C9_unrecognized_policy_counterexample :
    (calc_outer_elements 3 5 .mother zC9 init_state).map
        (fun s => (s.r1_win, s.r_total_ow)) = .ok (0, 0) ∧
    calc_wf .mother zC9 init_state = .error () := by
  with_unfolding_all decide

/-- C9 (amended): an unrecognized `merge_windows` value passes through
`_calc_outer_elements` silently (both policy blocks are skipped, the
function reduces to its chain-matrix stage), and only `_calc_wf` raises
the `ValueError`. -/
theorem C9_unrecognized_policy (pi t_bt : ℚ) (z : Zone)
    (st : TwoElementState) :
    calc_outer_elements pi t_bt .mother z st =
      calc_outer_chain pi t_bt z st ∧
    calc_wf .mother z st = .error () := by
  constructor
  · unfold calc_outer_elements calc_outer_windows
    cases h : calc_outer_chain pi t_bt z st with
    | error e => cases e; rfl
    | ok s1 =>
      simp only [ok_bind]
      simp [pure_ok]
      rfl
  · rfl

/-- C10: the claim says that after construction the inner-wall lumped
pair `(r1_iw, c1_iw)` has been computed.  The code contradicts its own
documentation twice: `__init__` never calls `_calc_inner_elements`, and
`_calc_inner_elements` itself assigns the misspelled attributes
`r1_1w` / `c1_1w`, so `r1_iw` and `c1_iw` keep the value 0.0.  On a zone
with a single inner wall (`r1 = 0.01`, `c1_korr = 5`) the routine leaves
`(r1_iw, c1_iw) = (0, 0)` and writes `(some 0.01, some 5)` into the
misspelled fields — and the constructor pipeline itself never completes
anyway. -/
theorem C10_inner_pair_defect :
    (calc_inner_elements 3 5 zC10 init_state).map
        (fun s => (s.r1_iw, s.c1_iw, s.r1_1w, s.c1_1w)) =
      .ok (0, 0, some (1 / 100), some 5) ∧
    two_element_calc 3 5 .mfalse zC10 = .error () := by
  with_unfolding_all decide

end TwoElementModel
